import Mathlib

/-!
Shallow embedding of the TestWare session/collaboration core.

The definitions below are translated from the repository sources:
* `src/src/lib/types.ts` — the TestCase / Participant data model;
* `src/unnamed/part_004` — the realtime dashboard (session join/leave,
  Firestore-backed test-case list, JSON upload, derived views, cards);
* `src/src/app/dashboard/page.tsx` — the other dashboard variant (its
  `handleUpdate` carries the Failed-transition warning);
* `src/src/app/actions.ts` — the report server action.

Remote services (Firestore, Math.random, the AI service) are modelled as
explicit oracle parameters: the session store is a function from session
code to an optional document, the random source is a stream of natural
numbers indexed by draw position, and the AI service is a function that
may fail.
-/

namespace Testware

/-- Test-case status, from `src/src/lib/types.ts` (`'Aprobado' | 'Fallido' |
'N/A' | 'Pendiente'`).  The variant in `src/src/app/dashboard/page.tsx` spells
the same four states `'Passed' | 'Failed' | 'N/A' | 'pending'`; `Fallido`
corresponds to `Failed` and `Pendiente` to `pending`. -/
inductive TestCaseStatus
  | Aprobado
  | Fallido
  | NA
  | Pendiente
deriving DecidableEq

/-- A test case, from the `TestCase` interface in `src/src/lib/types.ts`.
`updatedAt` is a timestamp, modelled as milliseconds. -/
structure TestCase where
  id : String
  proceso : String
  casoPrueba : String
  descripcion : String
  datosPrueba : String
  pasoAPaso : String
  resultadoEsperado : String
  evidencia : String
  comentarios : String
  estado : TestCaseStatus
  updatedBy : Option String
  updatedAt : Option Nat
deriving DecidableEq

/-- Participant role, from the `Participant` interface in `src/src/lib/types.ts`. -/
inductive Role
  | editor
  | viewer
deriving DecidableEq

/-- A presence entry, from the `Participant` interface in `src/src/lib/types.ts`. -/
structure Participant where
  id : String
  email : Option String
  role : Role
  online : Bool
deriving DecidableEq

/-- The client-local session state of the realtime dashboard: the `useState`
hooks of `TestwareDashboard` in `src/unnamed/part_004` (lines 133-149).
`viewerFilter = none` models the `'all'` filter value. -/
structure LocalState where
  sessionCode : Option String
  inputCode : String
  testCases : List TestCase
  participants : List Participant
  participantId : Option String
  filterProcess : String
  filterStatus : String
  isViewerMode : Bool
  joinAsViewer : Bool
  viewerFilter : Option TestCaseStatus
deriving DecidableEq

/-- The initial values of those `useState` hooks. -/
def initialLocalState : LocalState :=
  { sessionCode := none
    inputCode := ""
    testCases := []
    participants := []
    participantId := none
    filterProcess := "all"
    filterStatus := "all"
    isViewerMode := false
    joinAsViewer := false
    viewerFilter := none }

/-- Outcome of the best-effort mark-offline network write issued by
`leaveSessionCleanup`; its failure is caught and ignored by the source. -/
inductive WriteResult
  | ok
  | failed
deriving DecidableEq

/-- `leaveSessionCleanup` from `src/unnamed/part_004` lines 151-167: after the
best-effort mark-offline write (whose outcome `r` is swallowed by the
`try/catch`), it resets `sessionCode`, `testCases`, `participants`,
`participantIdRef`, `inputCode`, `isViewerMode` and `viewerFilter`.  It does
not touch `filterProcess`, `filterStatus` or `joinAsViewer`. -/
def leaveSessionCleanup (r : WriteResult) (s : LocalState) : LocalState :=
  match r with
  | .ok =>
    { sessionCode := none
      inputCode := ""
      testCases := []
      participants := []
      participantId := none
      filterProcess := s.filterProcess
      filterStatus := s.filterStatus
      isViewerMode := false
      joinAsViewer := s.joinAsViewer
      viewerFilter := none }
  | .failed =>
    { sessionCode := none
      inputCode := ""
      testCases := []
      participants := []
      participantId := none
      filterProcess := s.filterProcess
      filterStatus := s.filterStatus
      isViewerMode := false
      joinAsViewer := s.joinAsViewer
      viewerFilter := none }

/-- Whether `leaveSessionCleanup` attempts the mark-offline write at all
(`if (sessionCode && participantIdRef.current)`). -/
def leaveMarksOffline (s : LocalState) : Bool :=
  s.sessionCode.isSome && s.participantId.isSome

/-- The whitespace class stripped by JavaScript's `String.prototype.trim`
(ASCII subset: space, tab, line feed, carriage return, vertical tab, form
feed). -/
def isJsSpace (c : Char) : Bool :=
  (c == ' ') || (c == '\t') || (c == '\n') || (c == '\r') || (c == '\x0B') || (c == '\x0C')

/-- JavaScript's `code.trim()`: drop leading and trailing whitespace. -/
def jsTrim (s : String) : String :=
  String.mk ((s.toList.dropWhile isJsSpace).reverse.dropWhile isJsSpace).reverse

/-- JavaScript's `toUpperCase()` on one character (ASCII range). -/
def jsToUpperChar (c : Char) : Char :=
  if 'a' ≤ c then (if c ≤ 'z' then Char.ofNat (c.toNat - 32) else c) else c

/-- JavaScript's `code.toUpperCase()` on the strings at play here. -/
def jsToUpper (s : String) : String :=
  String.mk (s.toList.map jsToUpperChar)

/-- A session document in the store, as written by `handleCreateSession`
(`src/unnamed/part_004` line 263): the test-case list (plus a creation
timestamp and owner, not needed here). -/
structure SessionDoc where
  testCases : List TestCase
deriving DecidableEq

/-- Outcome signals of `handleJoinSession`, one per `toast` branch of
`src/unnamed/part_004` lines 276-305. -/
inductive JoinOutcome
  | authError
  | codeRequired
  | joined (code : String)
  | notFound
deriving DecidableEq

/-- `handleJoinSession` from `src/unnamed/part_004` lines 276-305.  `store`
models the Firestore `sessions` collection (`getDoc` on `sessions/<code>`),
`hasUser` whether an authenticated user is present, and `pid` the participant
document id returned by `manageParticipant`.  The input code is taken from
`s.inputCode`; an empty trimmed code is rejected before any lookup, otherwise
the code is normalized by `trim().toUpperCase()` and looked up, joining on
success and reporting not-found otherwise. -/
def handleJoinSession (store : String → Option SessionDoc) (hasUser : Bool)
    (pid : String) (s : LocalState) : LocalState × JoinOutcome :=
  if !hasUser then (s, .authError)
  else if jsTrim s.inputCode = "" then (s, .codeRequired)
  else
    let code := jsToUpper (jsTrim s.inputCode)
    match store code with
    | some _ =>
      ({ s with
          sessionCode := some code
          isViewerMode := s.joinAsViewer
          viewerFilter := none
          participantId := some pid }, .joined code)
    | none => (s, .notFound)

/-- The hexadecimal digit JavaScript's `Number.prototype.toString(16)` prints
for a value in `0..15` (lower case). -/
def hexDigit (n : Nat) : Char :=
  if n < 10 then Char.ofNat (48 + n) else Char.ofNat (87 + n)

/-- The template string of `simpleUUID` (`src/unnamed/part_004` line 113). -/
def uuidTemplate : List Char := "xxxxxxxx-xxxx-4xxx-yxxx-xxxxxxxxxxxx".toList

/-- The `replace(/[xy]/g, ...)` callback of `simpleUUID`, walking the template.
`rand j` models the j-th draw of `Math.random() * 16 | 0` (reduced mod 16);
`k` is the index of the next unconsumed draw.  An `x` becomes the drawn hex
digit `r`; a `y` becomes `r & 0x3 | 0x8`, i.e. `r % 4 + 8`; any other
character is copied.  Returns the filled characters and the next draw index. -/
def fillTemplate (rand : Nat → Nat) : List Char → Nat → List Char × Nat
  | [], k => ([], k)
  | c :: cs, k =>
    if c = 'x' then
      let rest := fillTemplate rand cs (k + 1)
      (hexDigit (rand k % 16) :: rest.1, rest.2)
    else if c = 'y' then
      let rest := fillTemplate rand cs (k + 1)
      (hexDigit (rand k % 16 % 4 + 8) :: rest.1, rest.2)
    else
      let rest := fillTemplate rand cs k
      (c :: rest.1, rest.2)

/-- `simpleUUID` from `src/unnamed/part_004` lines 112-117 (identical in
`src/src/app/dashboard/page.tsx` lines 111-116), with the stream of
`Math.random()` draws made explicit: returns the generated id together with
the index of the next unconsumed draw. -/
def simpleUUID (rand : Nat → Nat) (k : Nat) : String × Nat :=
  let filled := fillTemplate rand uuidTemplate k
  (String.mk filled.1, filled.2)

/-- A raw incoming record, as handed to the upload handlers: the shape of a
`TestCase` minus a server-assigned id (the JSON may still carry an `id` field,
which ingestion overwrites) and with a possibly absent status. -/
structure RawTestCase where
  carriedId : Option String
  proceso : String
  casoPrueba : String
  descripcion : String
  datosPrueba : String
  pasoAPaso : String
  resultadoEsperado : String
  evidencia : String
  comentarios : String
  estado : Option TestCaseStatus
deriving DecidableEq

/-- Ingestion of one raw record by `handleJsonUpload` (`src/unnamed/part_004`
lines 355-359): spread the record, overwrite `id` with `simpleUUID()` and
default `estado` to `Pendiente` (`c.estado || 'Pendiente'`). -/
def ingestCase (rand : Nat → Nat) (k : Nat) (c : RawTestCase) : TestCase × Nat :=
  let u := simpleUUID rand k
  ({ id := u.1
     proceso := c.proceso
     casoPrueba := c.casoPrueba
     descripcion := c.descripcion
     datosPrueba := c.datosPrueba
     pasoAPaso := c.pasoAPaso
     resultadoEsperado := c.resultadoEsperado
     evidencia := c.evidencia
     comentarios := c.comentarios
     estado := c.estado.getD .Pendiente
     updatedBy := none
     updatedAt := none }, u.2)

/-- The `json.map(...)` of `handleJsonUpload`, threading the random stream
left to right through the successive `simpleUUID()` calls. -/
def ingestList (rand : Nat → Nat) (k : Nat) : List RawTestCase → List TestCase × Nat
  | [] => ([], k)
  | c :: cs =>
    let p := ingestCase rand k c
    let rest := ingestList rand p.2 cs
    (p.1 :: rest.1, rest.2)

/-- The appendCases operation of `handleJsonUpload` (`src/unnamed/part_004`
lines 352-362): ingest the raw records and concatenate them after the
existing list (`[...testCases, ...newCases]`). -/
def appendCases (rand : Nat → Nat) (k : Nat) (existing : List TestCase)
    (raws : List RawTestCase) : List TestCase × Nat :=
  let p := ingestList rand k raws
  (existing ++ p.1, p.2)

/-- A sequence of appendCases calls: fold the batches over a (list, next-draw)
state, as produced by repeated uploads into the same session. -/
def runAppends (rand : Nat → Nat) : List (List RawTestCase) → List TestCase × Nat → List TestCase × Nat
  | [], st => st
  | b :: bs, st => runAppends rand bs (appendCases rand st.2 st.1 b)

/-- A field/value pair as passed to `handleUpdate(id, field, value)`; one
constructor per editable `TestCase` field. -/
inductive FieldValue
  | proceso (v : String)
  | casoPrueba (v : String)
  | descripcion (v : String)
  | datosPrueba (v : String)
  | pasoAPaso (v : String)
  | resultadoEsperado (v : String)
  | evidencia (v : String)
  | comentarios (v : String)
  | estado (v : TestCaseStatus)
deriving DecidableEq

/-- The spread `{ ...tc, [field]: value }`. -/
def setField (tc : TestCase) : FieldValue → TestCase
  | .proceso v => { tc with proceso := v }
  | .casoPrueba v => { tc with casoPrueba := v }
  | .descripcion v => { tc with descripcion := v }
  | .datosPrueba v => { tc with datosPrueba := v }
  | .pasoAPaso v => { tc with pasoAPaso := v }
  | .resultadoEsperado v => { tc with resultadoEsperado := v }
  | .evidencia v => { tc with evidencia := v }
  | .comentarios v => { tc with comentarios := v }
  | .estado v => { tc with estado := v }

/-- Whether the updated field is `estado` (`field === 'estado'`). -/
def isEstadoField : FieldValue → Bool
  | .estado _ => true
  | _ => false

/-- The `testCases.map(...)` shared by both `handleUpdate` variants: apply the
field to the case with the matching id and, when the field is `estado`, stamp
`updatedBy` (`user?.email || 'System'`) and `updatedAt` (the current time). -/
def mapUpdate (userEmail : Option String) (now : Nat) (cases : List TestCase)
    (id : String) (f : FieldValue) : List TestCase :=
  cases.map fun tc =>
    if tc.id = id then
      let newTc := setField tc f
      if isEstadoField f then
        { newTc with updatedBy := some (userEmail.getD "System"), updatedAt := some now }
      else newTc
    else tc

/-- Result of the dashboard's `handleUpdate`: the list handed to
`updateFirestoreTestCases` (which is also the new optimistic local list), and
whether the required-fields warning toast fired. -/
structure UpdateOutcome where
  cases : List TestCase
  warned : Bool
deriving DecidableEq

/-- `handleUpdate` from `src/src/app/dashboard/page.tsx` lines 317-342: build
the updated list; if the update sets `estado` to `Failed` and the updated case
has blank (empty after trim) `comentarios` or `evidencia`, raise the
"Información Requerida" toast — and then call `updateFirestoreTestCases` with
the updated list unconditionally. -/
def handleUpdate (userEmail : Option String) (now : Nat) (cases : List TestCase)
    (id : String) (f : FieldValue) : UpdateOutcome :=
  let updatedCases := mapUpdate userEmail now cases id f
  let warned :=
    match f with
    | .estado v =>
      decide (v = TestCaseStatus.Fallido) &&
        (match updatedCases.find? (fun tc => tc.id == id) with
         | some tcU => (jsTrim tcU.comentarios == "") || (jsTrim tcU.evidencia == "")
         | none => false)
    | _ => false
  { cases := updatedCases, warned := warned }

/-- `handleUpdate` from `src/unnamed/part_004` lines 456-469: the realtime
variant applies the field and pushes the list with no Failed-transition check
at all. -/
def handleUpdateLive (userEmail : Option String) (now : Nat) (cases : List TestCase)
    (id : String) (f : FieldValue) : List TestCase :=
  mapUpdate userEmail now cases id f

/-- `handleDeleteTestCase` from `src/unnamed/part_004` lines 471-475. -/
def handleDeleteTestCase (cases : List TestCase) (id : String) : List TestCase :=
  cases.filter fun tc => tc.id != id

/-- `handleClearData` from `src/unnamed/part_004` lines 477-480. -/
def handleClearData : List TestCase := []

/-- The derived view `failedCases` (`src/unnamed/part_004` line 321): the
cases whose `estado` is `Fallido`, recomputed from the current list. -/
def failedCases (cases : List TestCase) : List TestCase :=
  cases.filter fun tc => decide (tc.estado = TestCaseStatus.Fallido)

/-- The derived view `commentedCases` (`src/unnamed/part_004` line 322): the
filter keeps a case when `tc.comentarios?.trim()` is truthy, i.e. when the
comments are non-empty after trimming whitespace. -/
def commentedCases (cases : List TestCase) : List TestCase :=
  cases.filter fun tc => jsTrim tc.comentarios != ""

/-- A user interaction on a rendered `TestCaseCard`
(`src/unnamed/part_004` lines 1051-1168): changing the status `Select`,
blurring the comments `Textarea`, blurring the evidence `Input`, or
confirming the delete dialog. -/
inductive CardEvent
  | selectStatus (v : TestCaseStatus)
  | blurComentarios (v : String)
  | blurEvidencia (v : String)
  | clickDelete
deriving DecidableEq

/-- A mutation intent emitted by a card towards the dashboard handlers. -/
inductive Intent
  | update (id : String) (f : FieldValue)
  | delete (id : String)
deriving DecidableEq

/-- The props a rendered `TestCaseCard` received: whether an `onUpdate` /
`onDelete` callback was supplied and whether `isViewerMode` was set. -/
structure CardProps where
  caseId : String
  hasOnUpdate : Bool
  hasOnDelete : Bool
  isViewerMode : Bool
deriving DecidableEq

/-- How the dashboard instantiates `TestCaseCard`: the editor path passes
`onUpdate={handleUpdate}` and `onDelete={handleDeleteTestCase}`
(`src/unnamed/part_004` line 710); the viewer path renders
`<TestCaseCard testCase={tc} isViewerMode={true} />` with no callbacks at all
(`src/unnamed/part_004` line 1003). -/
def renderCard (isViewerMode : Bool) (id : String) : CardProps :=
  if isViewerMode then
    { caseId := id, hasOnUpdate := false, hasOnDelete := false, isViewerMode := true }
  else
    { caseId := id, hasOnUpdate := true, hasOnDelete := true, isViewerMode := false }

/-- Event handling of `TestCaseCard` (`src/unnamed/part_004` lines
1080-1120 and 1131-1152): the status `Select` is `disabled={isViewerMode}`,
so it fires no change in viewer mode; the blur handlers invoke the optional
`onUpdate` (`onUpdate?.(...)`), a no-op when no callback was passed; the
delete dialog is only rendered when `!isViewerMode` and invokes the optional
`onDelete`.  Returns the intent the interaction emits, if any. -/
def cardEmit (p : CardProps) : CardEvent → Option Intent
  | .selectStatus v =>
    if p.isViewerMode then none
    else if p.hasOnUpdate then some (.update p.caseId (.estado v)) else none
  | .blurComentarios v =>
    if p.hasOnUpdate then some (.update p.caseId (.comentarios v)) else none
  | .blurEvidencia v =>
    if p.hasOnUpdate then some (.update p.caseId (.evidencia v)) else none
  | .clickDelete =>
    if p.isViewerMode then none
    else if p.hasOnDelete then some (.delete p.caseId) else none

/-- Dispatch of an emitted intent to the realtime handlers
(`handleUpdate` / `handleDeleteTestCase` of `src/unnamed/part_004`). -/
def applyIntent (userEmail : Option String) (now : Nat) (cases : List TestCase) :
    Intent → List TestCase
  | .update id f => handleUpdateLive userEmail now cases id f
  | .delete id => handleDeleteTestCase cases id

/-- One UI interaction against the dashboard: render the card for the current
mode, process the event, and apply the emitted intent (if any) to the local
list — which is also the list pushed to the store. -/
def uiStep (userEmail : Option String) (now : Nat) (s : LocalState)
    (cardId : String) (e : CardEvent) : LocalState :=
  match cardEmit (renderCard s.isViewerMode cardId) e with
  | none => s
  | some i => { s with testCases := applyIntent userEmail now s.testCases i }

/-- A whole interaction session: process a list of card interactions in order. -/
def uiRun (userEmail : Option String) (now : Nat) :
    LocalState → List (String × CardEvent) → LocalState
  | s, [] => s
  | s, p :: rest => uiRun userEmail now (uiStep userEmail now s p.1 p.2) rest

/-- Modelled from the spec: the Idle/Inactivity Monitor (spec section 4.4, and
the README's "Cierre Automático por Inactividad", `src/unnamed/part_000` lines
25-28) has no implementation under `src/` — only its documentation.  The
configured idle window: 20 minutes, in milliseconds. -/
def idleWindowMs : Nat := 20 * 60 * 1000

/-- Modelled from the spec: the notification surfaced when a session closes.
A manual `leaveSession()` surfaces no closure notice; the idle closure
surfaces a distinct "session closed due to inactivity" notice. -/
inductive Notice
  | silent
  | inactivityClose
deriving DecidableEq

/-- Modelled from the spec: the Idle Monitor's per-client state — the local
session state plus the timestamp (ms) of the most recent accepted mutation. -/
structure MonitorState where
  client : LocalState
  lastMutation : Nat
deriving DecidableEq

/-- Modelled from the spec: an observation of the Idle Monitor — an accepted
mutation (local or remote) at time `t`, or a wall-clock check at time `t`. -/
inductive IdleEvent
  | mutation (t : Nat)
  | tick (t : Nat)
deriving DecidableEq

/-- Modelled from the spec (section 4.4): every accepted mutation re-arms the
timer; a clock check while a session is active and at least `idleWindowMs`
has elapsed since the last accepted mutation triggers a
`leaveSession()`-equivalent closure and the distinct inactivity notice. -/
def idleStep (m : MonitorState) : IdleEvent → MonitorState × Notice
  | .mutation t => ({ client := m.client, lastMutation := t }, .silent)
  | .tick t =>
    if m.client.sessionCode.isSome && decide (m.lastMutation + idleWindowMs ≤ t) then
      ({ client := leaveSessionCleanup .ok m.client, lastMutation := t }, .inactivityClose)
    else (m, .silent)

/-- The notice a manual leave surfaces: `handleLeaveSession`
(`src/unnamed/part_004` lines 169-171) shows no toast. -/
def manualLeaveNotice : Notice := .silent

/-- A failed test case as sent to the AI flow (`AITestCase` in
`src/src/lib/types.ts`; its `estado` is fixed to `'Fallido'`). -/
structure AITestCase where
  proceso : String
  casoPrueba : String
  descripcion : String
  datosPrueba : String
  pasoAPaso : String
  resultadoEsperado : String
  evidencia : String
  comentarios : String
deriving DecidableEq

/-- Input of `generateReportAction` (`FailureReportInput`); the guard in the
source also covers an absent list (`!input.failedTestCases`), hence the
`Option`. -/
structure FailureReportInput where
  reportDescription : String
  failedTestCases : Option (List AITestCase)
deriving DecidableEq

/-- Output of `generateReportAction` (`FailureReportOutput`). -/
structure FailureReportOutput where
  impactAnalysis : String
deriving DecidableEq

/-- The fixed placeholder returned when no failed cases are provided. -/
def noFailedCasesPlaceholder : FailureReportOutput :=
  { impactAnalysis := "No failed test cases were provided to generate an impact analysis." }

/-- `generateReportAction` from `src/src/app/actions.ts` lines 6-19.  The AI
service (`generateFailureReport`) is an oracle that may fail; the returned
`Bool` records whether it was invoked.  With no failed cases the action
returns the placeholder without calling the service; otherwise it calls the
service, wrapping a service failure into the generic report error. -/
def generateReportAction (service : FailureReportInput → Except String FailureReportOutput)
    (input : FailureReportInput) : Except String FailureReportOutput × Bool :=
  match input.failedTestCases with
  | none => (.ok noFailedCasesPlaceholder, false)
  | some l =>
    if l.length = 0 then (.ok noFailedCasesPlaceholder, false)
    else
      match service input with
      | .ok r => (.ok r, true)
      | .error _ =>
        (.error "An unexpected error occurred while generating the report.", true)

/-- Spec-side description of one ingested record, written after the spec's
words for `appendCases` ("assigns a fresh unique id to each incoming raw
record and defaults `status` to Pending if absent"): the i-th ingested record
keeps the raw record's fields, takes the id freshly generated for position
`i` (31 random draws per id), ignoring any id the record carried, and
defaults its status to `Pendiente`. -/
def specIngestedCase (rand : Nat → Nat) (k i : Nat) (c : RawTestCase) : TestCase :=
  { id := (simpleUUID rand (k + 31 * i)).1
    proceso := c.proceso
    casoPrueba := c.casoPrueba
    descripcion := c.descripcion
    datosPrueba := c.datosPrueba
    pasoAPaso := c.pasoAPaso
    resultadoEsperado := c.resultadoEsperado
    evidencia := c.evidencia
    comentarios := c.comentarios
    estado := c.estado.getD .Pendiente
    updatedBy := none
    updatedAt := none }

/-- Spec-side failed view, after the spec's words
(`failedCases = filter(status == Failed)`). -/
def specFailedCases (cases : List TestCase) : List TestCase :=
  cases.filter fun tc => decide (tc.estado = TestCaseStatus.Fallido)

/-- Spec-side commented view, after the claim's literal words
(`commentedCases` = the cases whose comments field is non-empty),
without the trimming the source performs. -/
def specCommentedNonEmpty (cases : List TestCase) : List TestCase :=
  cases.filter fun tc => tc.comentarios != ""

/-- Spec-side commented view as amended: the cases whose comments are
non-empty after trimming whitespace. -/
def specCommentedNonBlank (cases : List TestCase) : List TestCase :=
  cases.filter fun tc => jsTrim tc.comentarios != ""

/-- The id generated for the i-th case ever ingested into a session that
started empty (each `simpleUUID` call consumes 31 draws). -/
def uuidAt (rand : Nat → Nat) (i : Nat) : String := (simpleUUID rand (31 * i)).1

/-- Total number of raw records across a sequence of appendCases batches. -/
def totalRaws (batches : List (List RawTestCase)) : Nat :=
  (batches.map List.length).sum

/-- A test case with blank free-text fields, used as a concrete input. -/
def blankCase : TestCase :=
  { id := "tc1"
    proceso := ""
    casoPrueba := ""
    descripcion := ""
    datosPrueba := ""
    pasoAPaso := ""
    resultadoEsperado := ""
    evidencia := ""
    comentarios := ""
    estado := .Pendiente
    updatedBy := none
    updatedAt := none }

/-- A test case whose comments are whitespace only. -/
def blankCommentCase : TestCase := { blankCase with comentarios := " " }

/-- A raw record with blank fields and no status, used as a concrete input. -/
def rawBlank : RawTestCase :=
  { carriedId := none
    proceso := ""
    casoPrueba := ""
    descripcion := ""
    datosPrueba := ""
    pasoAPaso := ""
    resultadoEsperado := ""
    evidencia := ""
    comentarios := ""
    estado := none }

/-- A random stream that always draws 0 (a legal run of `Math.random`). -/
def randZero : Nat → Nat := fun _ => 0

/-- The identity stream, used as a concrete non-repeating random source. -/
def randIdent : Nat → Nat := fun k => k

/-- A store with no sessions. -/
def emptyStore : String → Option SessionDoc := fun _ => none

/-- A store holding exactly one session, under code AB3X7K. -/
def oneSessionStore : String → Option SessionDoc :=
  fun c => if c = "AB3X7K" then some { testCases := [blankCase] } else none

/-- A local state mid-session, with non-default editor filters. -/
def sessionState : LocalState :=
  { sessionCode := some "AB3X7K"
    inputCode := "AB3X7K"
    testCases := [blankCase]
    participants := []
    participantId := some "p1"
    filterProcess := "Ventas"
    filterStatus := "Fallido"
    isViewerMode := false
    joinAsViewer := false
    viewerFilter := none }

/-- A pre-join state whose typed code is whitespace only. -/
def whitespaceState : LocalState := { initialLocalState with inputCode := "   " }

/-- A pre-join state with a lower-case code with trailing whitespace. -/
def joinAttemptState : LocalState := { initialLocalState with inputCode := "ab3x7k " }

/-- A pre-join state requesting viewer mode. -/
def viewerJoinState : LocalState :=
  { initialLocalState with inputCode := "ab3x7k", joinAsViewer := true }

/-- An AI service that always fails. -/
def failingService : FailureReportInput → Except String FailureReportOutput :=
  fun _ => .error "AI error"

theorem simpleUUID_snd (rand : Nat → Nat) (k : Nat) : (simpleUUID rand k).2 = k + 31 := rfl

theorem ingestCase_snd (rand : Nat → Nat) (k : Nat) (c : RawTestCase) :
    (ingestCase rand k c).2 = k + 31 := rfl

theorem ingestCase_fst (rand : Nat → Nat) (k : Nat) (c : RawTestCase) :
    (ingestCase rand k c).1 = specIngestedCase rand k 0 c := by
  simp [ingestCase, specIngestedCase]

theorem specIngestedCase_succ (rand : Nat → Nat) (k i : Nat) (c : RawTestCase) :
    specIngestedCase rand k (i + 1) c = specIngestedCase rand (k + 31) i c := by
  have h : k + 31 * (i + 1) = k + 31 + 31 * i := by omega
  simp [specIngestedCase, h]

theorem ingestList_snd (rand : Nat → Nat) (raws : List RawTestCase) :
    ∀ k, (ingestList rand k raws).2 = k + 31 * raws.length := by
  induction raws with
  | nil => intro k; simp [ingestList]
  | cons c cs ih =>
    intro k
    simp only [ingestList, ingestCase_snd, ih, List.length_cons]
    omega

theorem ingestList_eq_spec (rand : Nat → Nat) (raws : List RawTestCase) :
    ∀ k, (ingestList rand k raws).1
      = List.zipWith (specIngestedCase rand k) (List.range raws.length) raws := by
  induction raws with
  | nil => intro k; simp [ingestList]
  | cons c cs ih =>
    intro k
    have hfun : (fun (a : Nat) (b : RawTestCase) => specIngestedCase rand k (Nat.succ a) b)
        = specIngestedCase rand (k + 31) := by
      funext a b
      exact specIngestedCase_succ rand k a b
    simp only [ingestList, ingestCase_snd, ingestCase_fst, ih, List.length_cons,
      List.range_succ_eq_map, List.zipWith_cons_cons, List.zipWith_map_left]
    rw [hfun]

theorem ingestList_map_id (rand : Nat → Nat) (raws : List RawTestCase) :
    ∀ k, (ingestList rand k raws).1.map TestCase.id
      = (List.range raws.length).map fun i => (simpleUUID rand (k + 31 * i)).1 := by
  induction raws with
  | nil => intro k; simp [ingestList]
  | cons c cs ih =>
    intro k
    have hfun : ((fun i => (simpleUUID rand (k + 31 * i)).1) ∘ Nat.succ)
        = fun i => (simpleUUID rand (k + 31 + 31 * i)).1 := by
      funext i
      have h : k + 31 * (Nat.succ i) = k + 31 + 31 * i := by omega
      simp [Function.comp, h]
    simp only [ingestList, ingestCase_snd, List.map_cons, ih, List.length_cons,
      List.range_succ_eq_map, List.map_map, hfun]
    simp [ingestCase]

theorem runAppends_char (rand : Nat → Nat) (batches : List (List RawTestCase)) :
    ∀ (cases : List TestCase) (k : Nat),
      (runAppends rand batches (cases, k)).1.map TestCase.id
        = cases.map TestCase.id
          ++ ((List.range (totalRaws batches)).map fun i => (simpleUUID rand (k + 31 * i)).1)
      ∧ (runAppends rand batches (cases, k)).2 = k + 31 * totalRaws batches := by
  induction batches with
  | nil =>
    intro cases k
    simp [runAppends, totalRaws]
  | cons b bs ih =>
    intro cases k
    have htot : totalRaws (b :: bs) = b.length + totalRaws bs := by
      simp [totalRaws]
    have hsnd := ingestList_snd rand b k
    obtain ⟨ih1, ih2⟩ := ih (cases ++ (ingestList rand k b).1) ((ingestList rand k b).2)
    rw [hsnd] at ih1 ih2
    have hfun : ((fun i => (simpleUUID rand (k + 31 * i)).1) ∘ (fun i => b.length + i))
        = fun i => (simpleUUID rand (k + 31 * b.length + 31 * i)).1 := by
      funext i
      have h : k + 31 * (b.length + i) = k + 31 * b.length + 31 * i := by omega
      simp [Function.comp, h]
    constructor
    · show (runAppends rand bs (appendCases rand k cases b)).1.map TestCase.id = _
      simp only [appendCases]
      rw [hsnd, ih1, List.map_append, ingestList_map_id rand b k, htot, List.range_add,
        List.map_append, List.map_map, hfun, List.append_assoc]
    · show (runAppends rand bs (appendCases rand k cases b)).2 = _
      simp only [appendCases]
      rw [hsnd, ih2, htot]
      omega

theorem viewer_ui_inert (userEmail : Option String) (now : Nat) (s : LocalState)
    (hv : s.isViewerMode = true) (evs : List (String × CardEvent)) :
    uiRun userEmail now s evs = s := by
  induction evs with
  | nil => rfl
  | cons p rest ih =>
    have hstep : uiStep userEmail now s p.1 p.2 = s := by
      cases p.2 <;> simp [uiStep, renderCard, cardEmit, hv]
    show uiRun userEmail now (uiStep userEmail now s p.1 p.2) rest = s
    rw [hstep]
    exact ih

theorem join_viewer_mode (store : String → Option SessionDoc) (pid : String)
    (s : LocalState) (code : String)
    (hj : (handleJoinSession store true pid s).2 = JoinOutcome.joined code) :
    (handleJoinSession store true pid s).1.isViewerMode = s.joinAsViewer := by
  unfold handleJoinSession at hj ⊢
  by_cases hc : jsTrim s.inputCode = ""
  · simp [hc] at hj
  · cases hstore : store (jsToUpper (jsTrim s.inputCode)) with
    | none => simp [hc, hstore] at hj
    | some d => simp [hc, hstore]

/-- C1: the spec's status-guard invariant says a transition to `Failed` with
blank comments or evidence is a no-op on the list plus a rejection signal.
The code violates this: `handleUpdate` in `src/src/app/dashboard/page.tsx`
raises the "Información Requerida" warning yet still hands the updated list
to `updateFirestoreTestCases`, and the `src/unnamed/part_004` variant applies
the transition without even warning.  Evaluated at the failing input — a
single pending case with empty comments and evidence, updated to `Fallido`:
the warning fires and the status nevertheless becomes `Fallido` in both
variants. -/
theorem handleUpdate_applies_failed_write_despite_warning :
    (handleUpdate none 0 [blankCase] "tc1" (.estado .Fallido)).warned = true
    ∧ ((handleUpdate none 0 [blankCase] "tc1" (.estado .Fallido)).cases.map TestCase.estado)
        = [TestCaseStatus.Fallido]
    ∧ ((handleUpdateLive none 0 [blankCase] "tc1" (.estado .Fallido)).map TestCase.estado)
        = [TestCaseStatus.Fallido] := by
  decide

/-- C2 (modelled from the spec; the Idle Monitor has no implementation under
src): while a session is active, a clock check at least the 20-minute window
after the last accepted mutation closes the session, resetting the client
state exactly as `leaveSessionCleanup` would, and surfaces the inactivity
notice, which differs from the (silent) manual-leave notice. -/
theorem idleMonitor_closes_after_window (m : MonitorState) (t : Nat)
    (hActive : m.client.sessionCode.isSome = true)
    (hIdle : m.lastMutation + idleWindowMs ≤ t) :
    idleStep m (.tick t)
      = ({ client := leaveSessionCleanup .ok m.client, lastMutation := t },
          Notice.inactivityClose)
    ∧ Notice.inactivityClose ≠ manualLeaveNotice := by
  constructor
  · simp [idleStep, hActive, hIdle]
  · decide

/-- Witness for C2 at a concrete active session and a tick exactly one idle
window after the last mutation. -/
theorem idleMonitor_closes_after_window_witness :
    sessionState.sessionCode.isSome = true
    ∧ (0 : Nat) + idleWindowMs ≤ idleWindowMs
    ∧ (idleStep { client := sessionState, lastMutation := 0 } (.tick idleWindowMs)
        = ({ client := leaveSessionCleanup .ok sessionState, lastMutation := idleWindowMs },
            Notice.inactivityClose)
      ∧ Notice.inactivityClose ≠ manualLeaveNotice) :=
  ⟨rfl, by omega,
    idleMonitor_closes_after_window { client := sessionState, lastMutation := 0 }
      idleWindowMs rfl
      (by show (0 : Nat) + idleWindowMs ≤ idleWindowMs; omega)⟩

/-- C3 as stated fails: with a whitespace-only input code, no session document
exists under the normalized (empty) code, yet `handleJoinSession` rejects
with the "Código requerido" signal rather than the not-found one (the local
state is indeed unchanged). -/
theorem joinSession_blank_code_not_notFound :
    emptyStore (jsToUpper (jsTrim whitespaceState.inputCode)) = none
    ∧ (handleJoinSession emptyStore true "p1" whitespaceState).2 ≠ JoinOutcome.notFound
    ∧ (handleJoinSession emptyStore true "p1" whitespaceState).1 = whitespaceState := by
  decide

/-- C3 amended: when the trimmed input code is non-empty, `handleJoinSession`
looks up the code normalized by trim + uppercase, and if no session document
exists there it fails with the not-found signal and leaves the whole local
state (session code, test cases, role, all of it) unchanged; a blank code is
instead rejected up front with the code-required signal, also without any
state change. -/
theorem joinSession_notFound_no_state_change (store : String → Option SessionDoc)
    (pid : String) (s : LocalState)
    (hne : jsTrim s.inputCode ≠ "")
    (habs : store (jsToUpper (jsTrim s.inputCode)) = none) :
    handleJoinSession store true pid s = (s, JoinOutcome.notFound) := by
  unfold handleJoinSession
  simp [hne, habs]

/-- Witness for C3 amended at a concrete lower-case code with trailing
whitespace against an empty store. -/
theorem joinSession_notFound_no_state_change_witness :
    jsTrim joinAttemptState.inputCode ≠ ""
    ∧ handleJoinSession emptyStore true "p1" joinAttemptState
        = (joinAttemptState, JoinOutcome.notFound) :=
  ⟨by decide,
    joinSession_notFound_no_state_change emptyStore "p1" joinAttemptState (by decide) rfl⟩

/-- C4: appendCases produces the existing list concatenated (in order) with
the ingested records — it never replaces or drops the existing list — where
the i-th ingested record is the i-th raw record with a freshly generated id
(independent of any id the record carried) and status defaulted to
`Pendiente` when absent, one ingested record per incoming record. -/
theorem appendCases_concatenates_fresh_defaulted (rand : Nat → Nat) (k : Nat)
    (existing : List TestCase) (raws : List RawTestCase) :
    (appendCases rand k existing raws).1
      = existing ++ List.zipWith (specIngestedCase rand k) (List.range raws.length) raws
    ∧ (List.zipWith (specIngestedCase rand k) (List.range raws.length) raws).length
        = raws.length := by
  constructor
  · simp [appendCases, ingestList_eq_spec]
  · simp

/-- C5 as stated fails: the ids come from `simpleUUID`, which draws from
`Math.random` with no uniqueness check; on a run of the random source that
repeats (here: every draw is 0, so every generated id is
00000000-0000-4000-8000-000000000000), a single appendCases call starting
from an empty session already yields two equal ids. -/
theorem appendCases_duplicate_ids_possible :
    ¬ ((runAppends randZero [[rawBlank, rawBlank]] ([], 0)).1.map TestCase.id).Nodup := by
  decide

/-- C5 amended: ids in `localCases` remain pairwise distinct across any
sequence of appendCases calls starting from an empty session, provided the
ids the generator actually produces for the ingested positions are pairwise
distinct (which the code assumes but does not check). -/
theorem appendCases_ids_nodup_of_generator_nodup (rand : Nat → Nat)
    (batches : List (List RawTestCase))
    (h : ((List.range (totalRaws batches)).map (uuidAt rand)).Nodup) :
    ((runAppends rand batches ([], 0)).1.map TestCase.id).Nodup := by
  obtain ⟨h1, _⟩ := runAppends_char rand batches [] 0
  rw [h1]
  simpa [uuidAt] using h

/-- Witness for C5 amended: the identity stream generates distinct ids for a
two-record batch, so the resulting session list has distinct ids. -/
theorem appendCases_ids_nodup_witness :
    ((List.range (totalRaws [[rawBlank, rawBlank]])).map (uuidAt randIdent)).Nodup
    ∧ ((runAppends randIdent [[rawBlank, rawBlank]] ([], 0)).1.map TestCase.id).Nodup :=
  ⟨by decide, appendCases_ids_nodup_of_generator_nodup randIdent [[rawBlank, rawBlank]] (by decide)⟩

/-- C6: `leaveSessionCleanup` is idempotent — a second call (whatever the
outcome of either best-effort mark-offline write) leaves the state exactly
where the first call put it — and after a first call (or with no active
session) no mark-offline network write is even attempted, so nothing can
throw: the reset is total and unconditional. -/
theorem leaveSession_idempotent (r1 r2 : WriteResult) (s : LocalState) :
    leaveSessionCleanup r2 (leaveSessionCleanup r1 s) = leaveSessionCleanup r1 s
    ∧ leaveMarksOffline (leaveSessionCleanup r1 s) = false := by
  cases r1 <;> cases r2 <;> simp [leaveSessionCleanup, leaveMarksOffline]

/-- C7 as stated fails: `leaveSessionCleanup` does not reset the editor
filters — after leaving from a state whose process filter is "Ventas", the
process filter still is "Ventas", not the default "all". -/
theorem leaveSession_keeps_editor_filters :
    (leaveSessionCleanup .ok sessionState).filterProcess
      ≠ initialLocalState.filterProcess := by
  decide

/-- C7 amended: after `leaveSessionCleanup` the test-case list, participant
list, participant handle, session code, input code, role flag and viewer
filter are reset to empty/defaults — but the editor process/status filters
are left as they were — and the reset is the same whether the best-effort
mark-offline write succeeded or failed. -/
theorem leaveSession_resets_session_state (r : WriteResult) (s : LocalState) :
    (leaveSessionCleanup r s).sessionCode = none
    ∧ (leaveSessionCleanup r s).testCases = []
    ∧ (leaveSessionCleanup r s).participants = []
    ∧ (leaveSessionCleanup r s).participantId = none
    ∧ (leaveSessionCleanup r s).inputCode = ""
    ∧ (leaveSessionCleanup r s).isViewerMode = false
    ∧ (leaveSessionCleanup r s).viewerFilter = none
    ∧ (leaveSessionCleanup r s).filterProcess = s.filterProcess
    ∧ (leaveSessionCleanup r s).filterStatus = s.filterStatus
    ∧ leaveSessionCleanup .failed s = leaveSessionCleanup .ok s := by
  cases r <;> simp [leaveSessionCleanup]

/-- C8 as stated fails: `commentedCases` keeps a case only when its comments
are non-empty after trimming, so a case with whitespace-only comments (which
are non-empty) is excluded, contradicting the claim's "comments field is
non-empty" reading. -/
theorem commentedCases_trims_whitespace :
    commentedCases [blankCommentCase] ≠ specCommentedNonEmpty [blankCommentCase] := by
  decide

/-- C8 amended: as functions of the current list (hence recomputed whenever
`localCases` changes), `failedCases` is exactly the sublist of cases with
status `Fallido`, and `commentedCases` is exactly the sublist of cases whose
comments are non-empty after trimming whitespace. -/
theorem derivedViews_amended (cases : List TestCase) :
    failedCases cases = specFailedCases cases
    ∧ commentedCases cases = specCommentedNonBlank cases :=
  ⟨rfl, rfl⟩

/-- C9: a client that joined with asViewer = true has `isViewerMode` set, its
cards are rendered with no update/delete callbacks and with the status
selector disabled, so no sequence of card interactions emits any mutation
intent: the local list (and hence the pushed list) never changes. -/
theorem viewer_cannot_mutate (userEmail : Option String) (now : Nat)
    (store : String → Option SessionDoc) (pid : String) (s : LocalState) (code : String)
    (hview : s.joinAsViewer = true)
    (hj : (handleJoinSession store true pid s).2 = JoinOutcome.joined code)
    (evs : List (String × CardEvent)) :
    uiRun userEmail now (handleJoinSession store true pid s).1 evs
      = (handleJoinSession store true pid s).1 := by
  apply viewer_ui_inert
  rw [join_viewer_mode store pid s code hj, hview]

/-- Witness for C9: joining the one-session store as a viewer and then
attempting a status change leaves the joined state untouched. -/
theorem viewer_cannot_mutate_witness :
    viewerJoinState.joinAsViewer = true
    ∧ (handleJoinSession oneSessionStore true "p1" viewerJoinState).2
        = JoinOutcome.joined "AB3X7K"
    ∧ uiRun none 0 (handleJoinSession oneSessionStore true "p1" viewerJoinState).1
        [("tc1", CardEvent.selectStatus .Fallido)]
      = (handleJoinSession oneSessionStore true "p1" viewerJoinState).1 :=
  ⟨rfl, by decide,
    viewer_cannot_mutate none 0 oneSessionStore "p1" viewerJoinState "AB3X7K" rfl (by decide)
      [("tc1", CardEvent.selectStatus .Fallido)]⟩

/-- C10: with an empty or missing failed-test-case list,
`generateReportAction` returns the fixed placeholder analysis as a normal
(non-throwing) result without invoking the AI service; and whenever the AI
service was invoked, the input carried at least one failed test case. -/
theorem generateReportAction_guard
    (service : FailureReportInput → Except String FailureReportOutput)
    (input : FailureReportInput) :
    ((input.failedTestCases = none ∨ input.failedTestCases = some []) →
      generateReportAction service input = (Except.ok noFailedCasesPlaceholder, false))
    ∧ ((generateReportAction service input).2 = true →
      ∃ l, input.failedTestCases = some l ∧ l ≠ []) := by
  constructor
  · rintro (h | h) <;> simp [generateReportAction, h]
  · intro h
    cases hft : input.failedTestCases with
    | none => simp [generateReportAction, hft] at h
    | some l =>
      cases l with
      | nil => simp [generateReportAction, hft] at h
      | cons a as => exact ⟨a :: as, rfl, by simp⟩

/-- Witness for C10 at a concrete empty input against an always-failing AI
service: the placeholder comes back and the service is not called. -/
theorem generateReportAction_guard_witness :
    generateReportAction failingService
        { reportDescription := "r", failedTestCases := some [] }
      = (Except.ok noFailedCasesPlaceholder, false) :=
  (generateReportAction_guard failingService
      { reportDescription := "r", failedTestCases := some [] }).1 (Or.inr rfl)

end Testware
